import Mathlib

/-!
Verification of the CSS selector builder in `src/05-objects-tasks.js`
(repository `core-js-101`), together with the `Rectangle` factory.

The builder is embedded shallowly: each builder object is a record
`SelObj` holding the three data fields of a JavaScript builder object
(`currentSelector`, `currentOrder`, `currentSelectorType`); the base
object `cssSelectorBuilder` carries the field values of the source's
global object, which the derived objects inherit through the prototype
chain when their own literal omits a field (only `combine` omits
fields, so its Lean embedding fills in the prototype's values
explicitly).  The `throw` statements in `checkCurrentOrder` become an
`Except BuilderError` result, and the single mutation in the program
(`this.currentSelector = ''` inside `stringify`) becomes explicit
state passing: `stringify` returns the read string together with the
updated object.

To reason about mutation and aliasing (frame properties), the same
operations are also given over an explicit object store: a list of
`SelObj` records indexed by allocation order, where each chaining call
allocates its fresh object at the end of the store and `stringify`
updates the receiver's cell in place.
-/

namespace Css

/-- The two failure messages thrown by `checkCurrentOrder`:
`duplicateUniquePart` is the error whose message is
"Element, id and pseudo-element should not occur more then one time
inside the selector", and `outOfOrder` is the error whose message is
"Selector parts should be arranged in the following order: element,
id, class, attribute, pseudo-class, pseudo-element". -/
inductive BuilderError where
  | duplicateUniquePart
  | outOfOrder
deriving Repr, DecidableEq

/-- One builder object: the three data fields a chained builder object
carries in the source (`currentSelector`, `currentOrder`,
`currentSelectorType`). -/
structure SelObj where
  currentSelector : String
  currentOrder : Nat
  currentSelectorType : String
deriving Repr, DecidableEq

/-- The global base object `cssSelectorBuilder`:
`currentSelector: ''`, `currentOrder: 0`, `currentSelectorType: ''`. -/
def cssSelectorBuilder : SelObj :=
  { currentSelector := "", currentOrder := 0, currentSelectorType := "" }

/-- `checkCurrentOrder(object)` from the source, with `self` the
receiver (`this`).  The first `if` throws the duplicate-part error,
the second throws the ordering error; a passed check returns unit. -/
def checkCurrentOrder (self object : SelObj) : Except BuilderError Unit :=
  if self.currentOrder = object.currentOrder ∧
      (object.currentSelectorType = "element"
        ∨ object.currentSelectorType = "id"
        ∨ object.currentSelectorType = "pseudoElement") then
    .error .duplicateUniquePart
  else if self.currentOrder > object.currentOrder then
    .error .outOfOrder
  else
    .ok ()

/-- The object literal built inside `element(value)`. -/
def elementObj (self : SelObj) (value : String) : SelObj :=
  { currentSelector := self.currentSelector ++ value,
    currentOrder := 1, currentSelectorType := "element" }

/-- The object literal built inside `id(value)`. -/
def idObj (self : SelObj) (value : String) : SelObj :=
  { currentSelector := self.currentSelector ++ "#" ++ value,
    currentOrder := 2, currentSelectorType := "id" }

/-- The object literal built inside `class(value)`. -/
def classObj (self : SelObj) (value : String) : SelObj :=
  { currentSelector := self.currentSelector ++ "." ++ value,
    currentOrder := 3, currentSelectorType := "class" }

/-- The object literal built inside `attr(value)`. -/
def attrObj (self : SelObj) (value : String) : SelObj :=
  { currentSelector := self.currentSelector ++ "[" ++ value ++ "]",
    currentOrder := 4, currentSelectorType := "attr" }

/-- The object literal built inside `pseudoClass(value)`. -/
def pseudoClassObj (self : SelObj) (value : String) : SelObj :=
  { currentSelector := self.currentSelector ++ ":" ++ value,
    currentOrder := 5, currentSelectorType := "pseudoClass" }

/-- The object literal built inside `pseudoElement(value)`. -/
def pseudoElementObj (self : SelObj) (value : String) : SelObj :=
  { currentSelector := self.currentSelector ++ "::" ++ value,
    currentOrder := 6, currentSelectorType := "pseudoElement" }

/-- `element(value)`: builds the candidate object, runs
`this.checkCurrentOrder(obj)` (which may throw), and returns the
candidate. -/
def element (self : SelObj) (value : String) : Except BuilderError SelObj :=
  (checkCurrentOrder self (elementObj self value)).map fun _ =>
    elementObj self value

/-- `id(value)` from the source. -/
def id (self : SelObj) (value : String) : Except BuilderError SelObj :=
  (checkCurrentOrder self (idObj self value)).map fun _ =>
    idObj self value

/-- `class(value)` from the source. -/
def «class» (self : SelObj) (value : String) : Except BuilderError SelObj :=
  (checkCurrentOrder self (classObj self value)).map fun _ =>
    classObj self value

/-- `attr(value)` from the source. -/
def attr (self : SelObj) (value : String) : Except BuilderError SelObj :=
  (checkCurrentOrder self (attrObj self value)).map fun _ =>
    attrObj self value

/-- `pseudoClass(value)` from the source. -/
def pseudoClass (self : SelObj) (value : String) : Except BuilderError SelObj :=
  (checkCurrentOrder self (pseudoClassObj self value)).map fun _ =>
    pseudoClassObj self value

/-- `pseudoElement(value)` from the source. -/
def pseudoElement (self : SelObj) (value : String) : Except BuilderError SelObj :=
  (checkCurrentOrder self (pseudoElementObj self value)).map fun _ =>
    pseudoElementObj self value

/-- `combine(selector1, combinator, selector2)`: the literal sets only
`currentSelector`; `currentOrder` and `currentSelectorType` are
resolved through the prototype `cssSelectorBuilder`, giving `0` and
`""`. -/
def combine (selector1 : SelObj) (combinator : String) (selector2 : SelObj) :
    SelObj :=
  { currentSelector :=
      selector1.currentSelector ++ " " ++ combinator ++ " "
        ++ selector2.currentSelector,
    currentOrder := 0, currentSelectorType := "" }

/-- `stringify()`: reads `this.currentSelector`, assigns `''` to it,
and returns the read value.  The mutation of `this` is made explicit:
the second component is the object after the call. -/
def stringify (self : SelObj) : String × SelObj :=
  (self.currentSelector, { self with currentSelector := "" })

/-! ### Store semantics

The same operations over an explicit object store, to state frame
properties about mutation.  Objects are addressed by their allocation
index; every chaining call allocates its object literal at the end of
the store (in the source the literal is allocated before
`checkCurrentOrder` runs, so the allocation happens even on the error
path), and `stringify` overwrites the `currentSelector` field of the
receiver's cell in place. -/

/-- A heap of builder objects, addressed by allocation index. -/
abbrev Store := List SelObj

/-- `element(value)` called on the object at index `i` of store `s`:
allocates the candidate object and returns the new store together with
the result of the call (the fresh object's index, or the thrown
error). -/
def elementS (s : Store) (i : Fin s.length) (value : String) :
    Store × Except BuilderError Nat :=
  (s ++ [elementObj (s.get i) value],
    (checkCurrentOrder (s.get i) (elementObj (s.get i) value)).map fun _ =>
      s.length)

/-- `id(value)` over the store. -/
def idS (s : Store) (i : Fin s.length) (value : String) :
    Store × Except BuilderError Nat :=
  (s ++ [idObj (s.get i) value],
    (checkCurrentOrder (s.get i) (idObj (s.get i) value)).map fun _ =>
      s.length)

/-- `class(value)` over the store. -/
def classS (s : Store) (i : Fin s.length) (value : String) :
    Store × Except BuilderError Nat :=
  (s ++ [classObj (s.get i) value],
    (checkCurrentOrder (s.get i) (classObj (s.get i) value)).map fun _ =>
      s.length)

/-- `attr(value)` over the store. -/
def attrS (s : Store) (i : Fin s.length) (value : String) :
    Store × Except BuilderError Nat :=
  (s ++ [attrObj (s.get i) value],
    (checkCurrentOrder (s.get i) (attrObj (s.get i) value)).map fun _ =>
      s.length)

/-- `pseudoClass(value)` over the store. -/
def pseudoClassS (s : Store) (i : Fin s.length) (value : String) :
    Store × Except BuilderError Nat :=
  (s ++ [pseudoClassObj (s.get i) value],
    (checkCurrentOrder (s.get i) (pseudoClassObj (s.get i) value)).map fun _ =>
      s.length)

/-- `pseudoElement(value)` over the store. -/
def pseudoElementS (s : Store) (i : Fin s.length) (value : String) :
    Store × Except BuilderError Nat :=
  (s ++ [pseudoElementObj (s.get i) value],
    (checkCurrentOrder (s.get i) (pseudoElementObj (s.get i) value)).map fun _ =>
      s.length)

/-- `combine(selector1, combinator, selector2)` over the store, with
the two argument selectors at indices `i` and `j`: allocates the
combined object and returns its index; no check runs. -/
def combineS (s : Store) (i : Fin s.length) (combinator : String)
    (j : Fin s.length) : Store × Nat :=
  (s ++ [combine (s.get i) combinator (s.get j)], s.length)

/-- `stringify()` over the store: overwrites the receiver's
`currentSelector` with `''` in place and returns the old value. -/
def stringifyS (s : Store) (i : Fin s.length) : Store × String :=
  (s.set i { s.get i with currentSelector := "" },
    (s.get i).currentSelector)

end Css

/-! ### The `Rectangle` factory -/

/-- The shape of the object returned by `Rectangle`: the two data
fields plus the `getArea` closure. -/
structure RectangleObj (α : Type) where
  width : α
  height : α
  getArea : Unit → α

/-- `Rectangle(width, height)` from the source: returns an object with
fields `width` and `height` and a `getArea` method computing
`width * height`.  The numeric type is kept abstract (any type with a
multiplication), so the statement covers the arithmetic the source
delegates to the host language. -/
def Rectangle {α : Type} [Mul α] (width height : α) : RectangleObj α :=
  { width := width, height := height, getArea := fun _ => width * height }

namespace Css

/-! ### Characterization lemmas

Each chaining operation, rewritten as a case split on the receiver's
`currentOrder`.  These follow the two `if` statements of
`checkCurrentOrder` after evaluating the string comparisons on the
candidate's literal `currentSelectorType`. -/

lemma element_eq (s : SelObj) (v : String) :
    element s v =
      if s.currentOrder = 1 then .error .duplicateUniquePart
      else if 1 < s.currentOrder then .error .outOfOrder
      else .ok (elementObj s v) := by
  by_cases h : s.currentOrder = 1
  · simp [element, checkCurrentOrder, elementObj, Except.map, h]
  · by_cases h2 : 1 < s.currentOrder <;>
      simp [element, checkCurrentOrder, elementObj, Except.map, h, h2]

lemma id_eq (s : SelObj) (v : String) :
    Css.id s v =
      if s.currentOrder = 2 then .error .duplicateUniquePart
      else if 2 < s.currentOrder then .error .outOfOrder
      else .ok (idObj s v) := by
  by_cases h : s.currentOrder = 2
  · simp [Css.id, checkCurrentOrder, idObj, Except.map, h]
  · by_cases h2 : 2 < s.currentOrder <;>
      simp [Css.id, checkCurrentOrder, idObj, Except.map, h, h2]

lemma class_eq (s : SelObj) (v : String) :
    «class» s v =
      if 3 < s.currentOrder then .error .outOfOrder
      else .ok (classObj s v) := by
  by_cases h2 : 3 < s.currentOrder <;>
    simp [«class», checkCurrentOrder, classObj, Except.map, h2]

lemma attr_eq (s : SelObj) (v : String) :
    attr s v =
      if 4 < s.currentOrder then .error .outOfOrder
      else .ok (attrObj s v) := by
  by_cases h2 : 4 < s.currentOrder <;>
    simp [attr, checkCurrentOrder, attrObj, Except.map, h2]

lemma pseudoClass_eq (s : SelObj) (v : String) :
    pseudoClass s v =
      if 5 < s.currentOrder then .error .outOfOrder
      else .ok (pseudoClassObj s v) := by
  by_cases h2 : 5 < s.currentOrder <;>
    simp [pseudoClass, checkCurrentOrder, pseudoClassObj, Except.map, h2]

lemma pseudoElement_eq (s : SelObj) (v : String) :
    pseudoElement s v =
      if s.currentOrder = 6 then .error .duplicateUniquePart
      else if 6 < s.currentOrder then .error .outOfOrder
      else .ok (pseudoElementObj s v) := by
  by_cases h : s.currentOrder = 6
  · simp [pseudoElement, checkCurrentOrder, pseudoElementObj, Except.map, h]
  · by_cases h2 : 6 < s.currentOrder <;>
      simp [pseudoElement, checkCurrentOrder, pseudoElementObj, Except.map, h, h2]

/-! ### Claim theorems -/

/-- Claim C1, counterexample to the claim as stated.  The claim says a
second fragment of a unique category (element, id, pseudo-element)
raises `DuplicateUniquePartError` regardless of which fragments were
appended in between.  On the chain `id('main').class('container')`
the state's rank is 3, so a second `id` hits the strict-order check
first and raises `OutOfOrderError`, not `DuplicateUniquePartError`. -/
theorem c1_counterexample :
    (do
      let a ← Css.id cssSelectorBuilder "main"
      let b ← «class» a "container"
      Css.id b "second" : Except BuilderError SelObj)
        ≠ .error .duplicateUniquePart ∧
    (do
      let a ← Css.id cssSelectorBuilder "main"
      let b ← «class» a "container"
      Css.id b "second" : Except BuilderError SelObj)
        = .error .outOfOrder :=
  ⟨fun h => BuilderError.noConfusion (Except.error.inj h), rfl⟩

/-- Claim C1, amended.  Appending a second fragment of category
element (rank 1), id (rank 2), or pseudo-element (rank 6) to a chain
that already contains one always raises an error, but which error
depends on the fragments appended in between: when the state's current
rank still equals the category's rank it raises
`DuplicateUniquePartError`; once higher-ranked fragments intervened
(current rank strictly greater) it raises `OutOfOrderError` instead. -/
theorem c1_amended (s : SelObj) (v : String) :
    (s.currentOrder = 1 → element s v = .error .duplicateUniquePart) ∧
    (1 < s.currentOrder → element s v = .error .outOfOrder) ∧
    (s.currentOrder = 2 → Css.id s v = .error .duplicateUniquePart) ∧
    (2 < s.currentOrder → Css.id s v = .error .outOfOrder) ∧
    (s.currentOrder = 6 → pseudoElement s v = .error .duplicateUniquePart) ∧
    (6 < s.currentOrder → pseudoElement s v = .error .outOfOrder) := by
  rw [element_eq, id_eq, pseudoElement_eq]
  refine ⟨fun h => ?_, fun h => ?_, fun h => ?_, fun h => ?_, fun h => ?_,
    fun h => ?_⟩
  · rw [if_pos h]
  · rw [if_neg (by omega), if_pos h]
  · rw [if_pos h]
  · rw [if_neg (by omega), if_pos h]
  · rw [if_pos h]
  · rw [if_neg (by omega), if_pos h]

/-- Witness for `c1_amended`: a second `id` appended directly after
`id('main')` raises the duplicate-part error. -/
theorem c1_amended_witness :
    (idObj cssSelectorBuilder "main").currentOrder = 2 ∧
    Css.id (idObj cssSelectorBuilder "main") "second"
      = .error .duplicateUniquePart :=
  ⟨rfl, (c1_amended (idObj cssSelectorBuilder "main") "second").2.2.1 rfl⟩

/-- Claim C2: appending a fragment whose category rank is strictly
below the state's current rank raises `OutOfOrderError`, for each of
the six fragment operations (ranks 1–6). -/
theorem c2_lower_rank_out_of_order (s : SelObj) (v : String) :
    (1 < s.currentOrder → element s v = .error .outOfOrder) ∧
    (2 < s.currentOrder → Css.id s v = .error .outOfOrder) ∧
    (3 < s.currentOrder → «class» s v = .error .outOfOrder) ∧
    (4 < s.currentOrder → attr s v = .error .outOfOrder) ∧
    (5 < s.currentOrder → pseudoClass s v = .error .outOfOrder) ∧
    (6 < s.currentOrder → pseudoElement s v = .error .outOfOrder) := by
  rw [element_eq, id_eq, class_eq, attr_eq, pseudoClass_eq, pseudoElement_eq]
  refine ⟨fun h => ?_, fun h => ?_, fun h => ?_, fun h => ?_, fun h => ?_,
    fun h => ?_⟩
  · rw [if_neg (by omega), if_pos h]
  · rw [if_neg (by omega), if_pos h]
  · rw [if_pos h]
  · rw [if_pos h]
  · rw [if_pos h]
  · rw [if_neg (by omega), if_pos h]

/-- Witness for `c2_lower_rank_out_of_order`: `element('div')` after
`id('main')` (rank 2 state, rank 1 candidate) raises the ordering
error. -/
theorem c2_witness :
    1 < (idObj cssSelectorBuilder "main").currentOrder ∧
    element (idObj cssSelectorBuilder "main") "div" = .error .outOfOrder :=
  ⟨by decide,
    (c2_lower_rank_out_of_order (idObj cssSelectorBuilder "main") "div").1
      (by decide)⟩

/-- Claim C3: whenever a fragment operation returns without raising,
the returned state's text is the receiver's text followed by exactly
`value`, `#value`, `.value`, `[value]`, `:value`, `::value`
respectively, and its rank/kind is the corresponding category
(element 1, id 2, class 3, attr 4, pseudoClass 5, pseudoElement 6). -/
theorem c3_fragment_text (s r : SelObj) (v : String) :
    (element s v = .ok r →
      r.currentSelector = s.currentSelector ++ v ∧
      r.currentOrder = 1 ∧ r.currentSelectorType = "element") ∧
    (Css.id s v = .ok r →
      r.currentSelector = s.currentSelector ++ "#" ++ v ∧
      r.currentOrder = 2 ∧ r.currentSelectorType = "id") ∧
    («class» s v = .ok r →
      r.currentSelector = s.currentSelector ++ "." ++ v ∧
      r.currentOrder = 3 ∧ r.currentSelectorType = "class") ∧
    (attr s v = .ok r →
      r.currentSelector = s.currentSelector ++ "[" ++ v ++ "]" ∧
      r.currentOrder = 4 ∧ r.currentSelectorType = "attr") ∧
    (pseudoClass s v = .ok r →
      r.currentSelector = s.currentSelector ++ ":" ++ v ∧
      r.currentOrder = 5 ∧ r.currentSelectorType = "pseudoClass") ∧
    (pseudoElement s v = .ok r →
      r.currentSelector = s.currentSelector ++ "::" ++ v ∧
      r.currentOrder = 6 ∧ r.currentSelectorType = "pseudoElement") := by
  rw [element_eq, id_eq, class_eq, attr_eq, pseudoClass_eq, pseudoElement_eq]
  refine ⟨fun h => ?_, fun h => ?_, fun h => ?_, fun h => ?_, fun h => ?_,
    fun h => ?_⟩ <;>
    · split at h <;> try split at h
      all_goals first
        | exact Except.noConfusion h
        | (injection h with h2; subst h2; exact ⟨rfl, rfl, rfl⟩)

/-- Witness for `c3_fragment_text`: `element('div')` on the base
builder yields text `div` with rank 1 and kind `element`. -/
theorem c3_witness :
    element cssSelectorBuilder "div" = .ok (elementObj cssSelectorBuilder "div") ∧
    ((elementObj cssSelectorBuilder "div").currentSelector
        = cssSelectorBuilder.currentSelector ++ "div" ∧
      (elementObj cssSelectorBuilder "div").currentOrder = 1 ∧
      (elementObj cssSelectorBuilder "div").currentSelectorType = "element") :=
  ⟨rfl, (c3_fragment_text cssSelectorBuilder
    (elementObj cssSelectorBuilder "div") "div").1 rfl⟩

/-- Claim C4: `combine(A, c, B)` returns a state whose text is A's
text, a single space, the combinator token (any string, validated
nowhere), a single space, then B's text; nested `combine` calls
concatenate left to right, as on the source's nested example (note the
three spaces produced by the `' '` combinator). -/
theorem c4_combine_text (a b : SelObj) (c : String) :
    (combine a c b).currentSelector =
      a.currentSelector ++ " " ++ c ++ " " ++ b.currentSelector ∧
    ((do
      let d1 ← element cssSelectorBuilder "div"
      let d2 ← Css.id d1 "main"
      let d3 ← «class» d2 "container"
      let d4 ← «class» d3 "draggable"
      let t1 ← element cssSelectorBuilder "table"
      let t2 ← Css.id t1 "data"
      let r1 ← element cssSelectorBuilder "tr"
      let r2 ← pseudoClass r1 "nth-of-type(even)"
      let e1 ← element cssSelectorBuilder "td"
      let e2 ← pseudoClass e1 "nth-of-type(even)"
      pure (stringify (combine d4 "+" (combine t2 "~" (combine r2 " " e2)))).1
      : Except BuilderError String)
        = .ok "div#main.container.draggable + table#data ~ tr:nth-of-type(even)   td:nth-of-type(even)") :=
  ⟨rfl, rfl⟩

/-- Claim C5: class, attr, and pseudoClass fragments are accepted
whenever the state's rank does not exceed theirs — in particular a
repeat at equal rank raises nothing — and
`id('main').class('container').class('editable')` stringifies to
`#main.container.editable`. -/
theorem c5_repeatable_categories (s : SelObj) (v : String) :
    (s.currentOrder ≤ 3 → «class» s v = .ok (classObj s v)) ∧
    (s.currentOrder ≤ 4 → attr s v = .ok (attrObj s v)) ∧
    (s.currentOrder ≤ 5 → pseudoClass s v = .ok (pseudoClassObj s v)) ∧
    ((do
      let a ← Css.id cssSelectorBuilder "main"
      let b ← «class» a "container"
      let c ← «class» b "editable"
      pure (stringify c).1 : Except BuilderError String)
        = .ok "#main.container.editable") := by
  rw [class_eq, attr_eq, pseudoClass_eq]
  refine ⟨fun h => ?_, fun h => ?_, fun h => ?_, rfl⟩ <;> rw [if_neg (by omega)]

/-- Witness for `c5_repeatable_categories`: a second `class` fragment
directly after a `class` fragment (rank 3 on rank 3) is accepted. -/
theorem c5_witness :
    (classObj cssSelectorBuilder "container").currentOrder ≤ 3 ∧
    «class» (classObj cssSelectorBuilder "container") "editable"
      = .ok (classObj (classObj cssSelectorBuilder "container") "editable") :=
  ⟨by decide,
    (c5_repeatable_categories (classObj cssSelectorBuilder "container")
      "editable").1 (by decide)⟩

/-- Claim C6: the first `stringify` call returns the accumulated text
and clears it from the state; a second call on the resulting state
returns the empty string. -/
theorem c6_stringify_single_use (s : SelObj) :
    (stringify s).1 = s.currentSelector ∧
    ((stringify s).2).currentSelector = "" ∧
    (stringify (stringify s).2).1 = "" :=
  ⟨rfl, rfl, rfl⟩

/-- Claim C7: a state returned by `combine` carries rank 0 (the
prototype's reset rank), so appending a fragment of any of the six
categories to it is accepted without a duplicate or ordering error. -/
theorem c7_combined_accepts_all (a b : SelObj) (c v : String) :
    (combine a c b).currentOrder = 0 ∧
    element (combine a c b) v = .ok (elementObj (combine a c b) v) ∧
    Css.id (combine a c b) v = .ok (idObj (combine a c b) v) ∧
    «class» (combine a c b) v = .ok (classObj (combine a c b) v) ∧
    attr (combine a c b) v = .ok (attrObj (combine a c b) v) ∧
    pseudoClass (combine a c b) v = .ok (pseudoClassObj (combine a c b) v) ∧
    pseudoElement (combine a c b) v = .ok (pseudoElementObj (combine a c b) v) :=
  ⟨rfl, rfl, rfl, rfl, rfl, rfl, rfl⟩

/-- Claim C8: over the object store, the six fragment operations and
`combine` leave every pre-existing cell untouched (receiver and
arguments included, also on the error path, since the store component
is returned unconditionally); each allocates its result at the fresh
index `s.length`, as the final conjunct records for `combine`. -/
theorem c8_chain_ops_frame (s : Store) (i j : Fin s.length) (v c : String)
    (k : Nat) (hk : k < s.length) :
    (elementS s i v).1[k]? = s[k]? ∧
    (idS s i v).1[k]? = s[k]? ∧
    (classS s i v).1[k]? = s[k]? ∧
    (attrS s i v).1[k]? = s[k]? ∧
    (pseudoClassS s i v).1[k]? = s[k]? ∧
    (pseudoElementS s i v).1[k]? = s[k]? ∧
    (combineS s i c j).1[k]? = s[k]? ∧
    (combineS s i c j).2 = s.length :=
  ⟨List.getElem?_append_left hk, List.getElem?_append_left hk,
    List.getElem?_append_left hk, List.getElem?_append_left hk,
    List.getElem?_append_left hk, List.getElem?_append_left hk,
    List.getElem?_append_left hk, rfl⟩

/-- Witness for `c8_chain_ops_frame` on a two-object store. -/
theorem c8_witness :
    (0 : Nat) < ([cssSelectorBuilder, idObj cssSelectorBuilder "main"] : Store).length ∧
    ((elementS [cssSelectorBuilder, idObj cssSelectorBuilder "main"]
        ⟨1, by decide⟩ "div").1[0]?
      = ([cssSelectorBuilder, idObj cssSelectorBuilder "main"] : Store)[0]?) :=
  ⟨by decide,
    (c8_chain_ops_frame [cssSelectorBuilder, idObj cssSelectorBuilder "main"]
      ⟨1, by decide⟩ ⟨0, by decide⟩ "div" "+" 0 (by decide)).1⟩

/-- Claim C9: `stringify` on the cell at index `i` changes only that
cell: every other index keeps its object (so a cell holding the root
`cssSelectorBuilder` still holds it, with its empty text), the
receiver's cell keeps all fields except the cleared text, and the
returned string is the receiver's old text. -/
theorem c9_stringify_frame (s : Store) (i : Fin s.length) (k : Nat)
    (hk : k ≠ i.val) :
    (stringifyS s i).1[k]? = s[k]? ∧
    (s[k]? = some cssSelectorBuilder →
      (stringifyS s i).1[k]? = some cssSelectorBuilder) ∧
    (stringifyS s i).1[i.val]? = some { s.get i with currentSelector := "" } ∧
    (stringifyS s i).2 = (s.get i).currentSelector := by
  refine ⟨List.getElem?_set_ne (Ne.symm hk), fun hb => ?_,
    List.getElem?_set_self i.isLt, rfl⟩
  rw [show (stringifyS s i).1[k]? = s[k]? from
    List.getElem?_set_ne (Ne.symm hk), hb]

/-- Witness for `c9_stringify_frame` on a two-object store. -/
theorem c9_witness :
    (0 : Nat) ≠ (1 : Nat) ∧
    ((stringifyS [cssSelectorBuilder, idObj cssSelectorBuilder "main"]
        ⟨1, by decide⟩).1[0]?
      = ([cssSelectorBuilder, idObj cssSelectorBuilder "main"] : Store)[0]?) :=
  ⟨by decide,
    (c9_stringify_frame [cssSelectorBuilder, idObj cssSelectorBuilder "main"]
      ⟨1, by decide⟩ 0 (by decide)).1⟩

end Css

/-- Claim C10: for any width and height (over any type with a
multiplication, covering the numbers the source delegates to the host
language), `Rectangle(width, height)` has `width` and `height` fields
equal to its arguments and `getArea()` returns `width * height`. -/
theorem c10_rectangle {α : Type} [Mul α] (width height : α) :
    (Rectangle width height).width = width ∧
    (Rectangle width height).height = height ∧
    (Rectangle width height).getArea () = width * height :=
  ⟨rfl, rfl, rfl⟩
